import Mathlib

/-!
Verification of the omnihelp orchestration core against its specification.

The embedding follows the repository sources:
- src/src/graph/state.py       (AgentState, IntentType, RouteType)
- src/src/agents/router.py     (route)
- src/src/graph/nodes.py       (router_node, sql_node, ...)
- src/src/config/settings.py   (Settings, get_settings)
- src/tests/evaluation/eval_router.py (compute_accuracy)

The router body, the graph nodes and the orchestrator raise NotImplementedError
in the sources; where a claim depends on their behaviour, the definition is
modelled from the spec and its doc comment says so.  Floats (confidence,
threshold) are modelled as rationals; no floating-point arithmetic beyond
comparison of literals occurs in the modelled code.
-/

namespace OmniHelp

/-- String values of the IntentType Literal in src/src/graph/state.py (line 17):
"policy", "sql", "web", "product_info", "complaint". -/
def intentTypeValues : List String :=
  ["policy", "sql", "web", "product_info", "complaint"]

/-- String values of the RouteType Literal in src/src/graph/state.py (line 24):
"policy", "sql", "web", "clarification", "fallback". -/
def routeTypeValues : List String :=
  ["policy", "sql", "web", "clarification", "fallback"]

/-- Intent values, one constructor per member of IntentType. -/
inductive Intent where
  | policy
  | sql
  | web
  | product_info
  | complaint
deriving DecidableEq, Repr

/-- String spelled by each Intent constructor in the source Literal. -/
def Intent.toStr : Intent → String
  | .policy => "policy"
  | .sql => "sql"
  | .web => "web"
  | .product_info => "product_info"
  | .complaint => "complaint"

/-- Route values, one constructor per member of RouteType. -/
inductive Route where
  | policy
  | sql
  | web
  | clarification
  | fallback
deriving DecidableEq, Repr

/-- String spelled by each Route constructor in the source Literal. -/
def Route.toStr : Route → String
  | .policy => "policy"
  | .sql => "sql"
  | .web => "web"
  | .clarification => "clarification"
  | .fallback => "fallback"

/-- Conversation message entry (role, content); AgentState.messages holds
BaseMessage values in the source, of which the spec uses role and content. -/
structure Message where
  role : String
  content : String
deriving DecidableEq, Repr

/-- Row mapping returned by the SQL pipeline: an association list of
column name to value, standing for the Dict of sql_result entries. -/
def RowMap : Type := List (String × String)

/-- Shared graph state, mirroring the AgentState TypedDict of
src/src/graph/state.py (total := False, so every non-reducer key is optional;
list-valued keys default to the empty list). -/
structure AgentState where
  messages : List Message := []
  user_query : String := ""
  intent : Option Intent := none
  confidence : Option ℚ := none
  missing_info : List String := []
  routing_rationale : Option String := none
  route : Option Route := none
  retrieved_docs : List String := []
  policy_context : Option String := none
  sql_query : Option String := none
  sql_result : Option (List RowMap) := none
  sql_error : Option String := none
  web_context : Option String := none
  fallback_reason : Option String := none
  handoff_context : Option String := none
  final_response : Option String := none
  error : Option String := none

/-- Result of the external classifier capability of spec section 6:
classify(query, history) yields intent, confidence and an optional
missingInfo list (empty when absent). -/
structure ClassifyResult where
  intent : Intent
  confidence : ℚ
  missing_info : List String
deriving DecidableEq, Repr

/-- Modelled from the spec: the intent-to-route map of the Router
(src/src/agents/router.py route raises NotImplementedError).  Spec 4.1:
policy to policy, order to order (spelled sql in RouteType), web to web,
product_info to policy (tie-break), complaint to fallback. -/
def intentToRoute : Intent → Route
  | .policy => .policy
  | .sql => .sql
  | .web => .web
  | .product_info => .policy
  | .complaint => .fallback

/-- Partial state update produced by one Router visit: intent, confidence,
missing_info, routing_rationale, route, and fallback_reason on the
classification-failure path. -/
structure RouterUpdate where
  intent : Option Intent
  confidence : Option ℚ
  missing_info : List String
  routing_rationale : String
  route : Route
  fallback_reason : Option String
deriving DecidableEq, Repr

/-- Modelled from the spec: the Router node logic
(src/src/agents/router.py route raises NotImplementedError).  Spec 4.1:
on classifier failure (no well-formed intent/confidence pair) set
route = fallback with fallback_reason "classification_failure" rather than
raising; otherwise apply the Confidence Gate (confidence below threshold or
missing_info non-empty forces clarification) and else the intent-to-route
map.  routing_rationale is populated on every visit. -/
def routerStep (threshold : ℚ) (cls : Option ClassifyResult) : RouterUpdate :=
  match cls with
  | none =>
      { intent := none
        confidence := none
        missing_info := []
        routing_rationale := "classifier produced no well-formed intent/confidence pair"
        route := .fallback
        fallback_reason := some "classification_failure" }
  | some c =>
      if c.confidence < threshold ∨ c.missing_info ≠ [] then
        { intent := some c.intent
          confidence := some c.confidence
          missing_info := c.missing_info
          routing_rationale := "confidence gate: insufficient confidence or missing information"
          route := .clarification
          fallback_reason := none }
      else
        { intent := some c.intent
          confidence := some c.confidence
          missing_info := c.missing_info
          routing_rationale := "intent mapped to route"
          route := intentToRoute c.intent
          fallback_reason := none }

/-- Merge of the update of a Router visit into the shared state (shallow merge:
returned keys overwrite, omitted keys persist). -/
def applyRouter (s : AgentState) (u : RouterUpdate) : AgentState :=
  { s with
    intent := u.intent
    confidence := u.confidence
    missing_info := u.missing_info
    routing_rationale := some u.routing_rationale
    route := some u.route
    fallback_reason := u.fallback_reason }

/-- Partial state update returnable by a branch handler (policy, sql, web,
fallback, clarification).  Spec section 3: final_response is set only by the
Synthesizer and route only by the Router, so neither is a key a branch
handler may return; messages are merged through the append reducer. -/
structure BranchUpdate where
  messages : List Message := []
  retrieved_docs : List String := []
  policy_context : Option String := none
  sql_query : Option String := none
  sql_result : Option (List RowMap) := none
  sql_error : Option String := none
  web_context : Option String := none
  fallback_reason : Option String := none
  handoff_context : Option String := none

/-- Shallow-merge helper: a returned (some) value overwrites, an omitted
(none) key leaves the existing value untouched. -/
def mergeOpt {α : Type} (incoming existing : Option α) : Option α :=
  match incoming with
  | some v => some v
  | none => existing

/-- Modelled from the spec: the append-only conversation reducer.  The
add_messages reducer annotated on AgentState.messages in
src/src/graph/state.py comes from the external langgraph library, not from
this repository; spec section 9 defines the reducer as the explicit merge
function taking existing and incoming to existing ++ incoming. -/
def add_messages (existing incoming : List Message) : List Message :=
  existing ++ incoming

/-- Merge of the update of a branch handler into the shared state: shallow merge
of the optional keys, append reducer on messages. -/
def applyBranch (s : AgentState) (u : BranchUpdate) : AgentState :=
  { s with
    messages := add_messages s.messages u.messages
    retrieved_docs := s.retrieved_docs ++ u.retrieved_docs
    policy_context := mergeOpt u.policy_context s.policy_context
    sql_query := mergeOpt u.sql_query s.sql_query
    sql_result := mergeOpt u.sql_result s.sql_result
    sql_error := mergeOpt u.sql_error s.sql_error
    web_context := mergeOpt u.web_context s.web_context
    fallback_reason := mergeOpt u.fallback_reason s.fallback_reason
    handoff_context := mergeOpt u.handoff_context s.handoff_context }

/-- Modelled from the spec: the Order/SQL handler (sql_node in
src/src/graph/nodes.py raises NotImplementedError).  Spec 4.2: OrderHandler
calls the query/execute collaborator and returns exactly one of sql_result
or sql_error; a backend exception (the Except.error case of the
collaborator) is caught locally and converted into sql_error. -/
def sql_node (execute : String → Except String (List RowMap))
    (s : AgentState) : BranchUpdate :=
  match execute s.user_query with
  | .ok rows => { sql_result := some rows, sql_error := none }
  | .error e => { sql_result := none, sql_error := some e }

/-- Modelled from the spec: the clarifying question produced by the
ClarificationHandler (clarification_node raises NotImplementedError), derived
from missing_info per spec 4.3. -/
def clarificationQuestion (missing : List String) : String :=
  "Could you clarify: " ++ String.intercalate ", " missing

/-- Modelled from the spec: one clarification detour (spec 4.3): the
handler appends its clarifying question to the conversation, the next user
turn is appended, and the addressed missing_info is cleared before control
returns to the Router. -/
def clarificationStep (s : AgentState) (turn : String) : AgentState :=
  { s with
    messages :=
      add_messages s.messages
        [{ role := "assistant", content := clarificationQuestion s.missing_info },
         { role := "user", content := turn }]
    missing_info := [] }

/-- Modelled from the spec: terminal part of one request (spec 4.5, 4.6):
the chosen branch handler runs (a fatal outcome sets error and halts,
skipping the Synthesizer), then the Synthesizer produces final_response (a
fatal outcome there likewise sets error). -/
def finishBranch (handlers : Route → AgentState → Except String BranchUpdate)
    (synth : AgentState → Except String String)
    (r : Route) (s : AgentState) : AgentState :=
  match handlers r s with
  | .error fatal => { s with error := some fatal }
  | .ok u =>
      let s2 := applyBranch s u
      match synth s2 with
      | .error fatal => { s2 with error := some fatal }
      | .ok resp => { s2 with final_response := some resp }

/-- Modelled from the spec: the forced fallback applied by the Orchestrator
when the clarification re-route budget is exhausted (spec 4.6): route is
overridden to fallback with fallback_reason "clarification_limit_exceeded"
to guarantee termination. -/
def forceFallback (s : AgentState) : AgentState :=
  { s with
    route := some .fallback
    fallback_reason := some "clarification_limit_exceeded" }

/-- Modelled from the spec: the Orchestrator loop (spec 4.6; the graph
executor is not present in src/ and every node raises NotImplementedError).
Each iteration is one Router visit: classify, apply the Router update, then
either enter the clarification detour (consuming one unit of the remaining
re-route budget and the next user turn; with the budget exhausted the
Orchestrator forces route = fallback) or run the selected branch followed by
the Synthesizer. -/
def runLoop (classify : String → List Message → Option ClassifyResult)
    (handlers : Route → AgentState → Except String BranchUpdate)
    (synth : AgentState → Except String String)
    (threshold : ℚ) : Nat → List String → AgentState → AgentState
  | 0, _turns, s =>
      if (routerStep threshold (classify s.user_query s.messages)).route =
          Route.clarification then
        finishBranch handlers synth .fallback
          (forceFallback
            (applyRouter s (routerStep threshold (classify s.user_query s.messages))))
      else
        finishBranch handlers synth
          (routerStep threshold (classify s.user_query s.messages)).route
          (applyRouter s (routerStep threshold (classify s.user_query s.messages)))
  | n + 1, turns, s =>
      if (routerStep threshold (classify s.user_query s.messages)).route =
          Route.clarification then
        runLoop classify handlers synth threshold n turns.tail
          (clarificationStep
            (applyRouter s (routerStep threshold (classify s.user_query s.messages)))
            (turns.headD ""))
      else
        finishBranch handlers synth
          (routerStep threshold (classify s.user_query s.messages)).route
          (applyRouter s (routerStep threshold (classify s.user_query s.messages)))

/-- Modelled from the spec: the core entry point run(userQuery, priorHistory)
of spec section 6, driving the Orchestrator from a fresh state to a terminal
state with the configured threshold and maximum re-route count. -/
def runGraph (classify : String → List Message → Option ClassifyResult)
    (handlers : Route → AgentState → Except String BranchUpdate)
    (synth : AgentState → Except String String)
    (threshold : ℚ) (maxReroutes : Nat)
    (turns : List String)
    (userQuery : String) (priorHistory : List Message) : AgentState :=
  runLoop classify handlers synth threshold maxReroutes turns
    { messages := priorHistory, user_query := userQuery }

/-- Declared type of a pydantic field of the Settings class: optional
string, plain string, boolean, float, or integer. -/
inductive ConfigType where
  | optStr
  | strT
  | boolT
  | floatT
  | intT
deriving DecidableEq, Repr

/-- Field names and declared types of the Settings class in
src/src/config/settings.py (lines 14-56), in declaration order. -/
def settingsFields : List (String × ConfigType) :=
  [("openai_api_key", .optStr),
   ("tavily_api_key", .optStr),
   ("langchain_tracing_v2", .boolT),
   ("langchain_api_key", .optStr),
   ("langchain_project", .optStr),
   ("database_url", .strT),
   ("chroma_persist_directory", .optStr),
   ("qdrant_url", .optStr),
   ("qdrant_api_key", .optStr),
   ("router_confidence_threshold", .floatT)]

/-- Embedding of the Settings class of src/src/config/settings.py with its
declared defaults; router_confidence_threshold is the float Field with
default 0.7 (ge 0.0, le 1.0). -/
structure Settings where
  openai_api_key : Option String := none
  tavily_api_key : Option String := none
  langchain_tracing_v2 : Bool := false
  langchain_api_key : Option String := none
  langchain_project : Option String := some "omni-help"
  database_url : String := "sqlite+aiosqlite:///./data/omnihelp.db"
  chroma_persist_directory : Option String := some "./data/chroma"
  qdrant_url : Option String := none
  qdrant_api_key : Option String := none
  router_confidence_threshold : ℚ := 7 / 10
deriving DecidableEq, Repr

/-- Settings instance with every field at its declared default, as
constructed by Settings() with an empty environment. -/
def defaultSettings : Settings := {}

/-- Environment the Settings constructor reads: a mapping from variable
name to value, as an association list. -/
def Env : Type := List (String × String)

/-- Embedding of get_settings from src/src/config/settings.py (lines 58-61):
the lru_cache decorator is modelled as explicit cache state threaded through
calls; loadEnv stands for the environment read performed by the Settings()
constructor on a cache miss.  The call returns the settings value together
with the cache left for the next call. -/
def get_settings (loadEnv : Env → Settings) (env : Env) :
    Option Settings → Settings × Option Settings
  | some s => (s, some s)
  | none =>
      let s := loadEnv env
      (s, some s)

/-- Result record produced for one golden example by run_router_on_dataset
in src/tests/evaluation/eval_router.py. -/
structure EvalResult where
  id : String
  query : String
  expected_intent : String
  predicted_intent : String
  correct : Bool
deriving DecidableEq, Repr

/-- Embedding of compute_accuracy from src/tests/evaluation/eval_router.py
(lines 48-52): 0.0 on the empty list, otherwise the count of records whose
correct field is true divided (true division) by the total count. -/
def compute_accuracy (results : List EvalResult) : ℚ :=
  if results = [] then 0
  else ((results.countP fun r => r.correct) : ℚ) / (results.length : ℚ)

/-! Theorems -/

/-- C1: Confidence Gate — for every Router visit, if the classified
confidence is below the configured threshold or missing_info is non-empty,
the route produced by that visit is clarification, regardless of which of
the five intent values was classified. -/
theorem C1_confidence_gate (threshold : ℚ) (i : Intent) (conf : ℚ)
    (mi : List String) (h : conf < threshold ∨ mi ≠ []) :
    (routerStep threshold
      (some { intent := i, confidence := conf, missing_info := mi })).route =
      Route.clarification := by
  simp only [routerStep, if_pos h]

/-- C1 witness: at threshold 0.7 with web intent classified at confidence
0.3 and empty missing_info, the gate fires and the route is clarification. -/
theorem C1_confidence_gate_witness :
    ((3 : ℚ) / 10 < 7 / 10 ∨ ([] : List String) ≠ []) ∧
    (routerStep (7 / 10)
      (some { intent := .web, confidence := 3 / 10, missing_info := [] })).route =
      Route.clarification :=
  ⟨Or.inl (by norm_num),
   C1_confidence_gate (7 / 10) .web (3 / 10) [] (Or.inl (by norm_num))⟩

/-- C3: Router failure handling — when the external classifier cannot
produce a well-formed intent/confidence pair (modelled as the none result),
the output of the Router sets route = fallback and fallback_reason =
"classification_failure"; routerStep is a total function, so no exception
escapes the invocation. -/
theorem C3_classification_failure (threshold : ℚ) :
    (routerStep threshold none).route = Route.fallback ∧
    (routerStep threshold none).fallback_reason = some "classification_failure" :=
  ⟨rfl, rfl⟩

/-- C7: tie-break for product_info — when the classified intent is
product_info with confidence at or above the threshold and empty
missing_info, the resulting route is policy, not web. -/
theorem C7_product_info_tie_break (threshold conf : ℚ) (h : threshold ≤ conf) :
    (routerStep threshold
      (some { intent := .product_info, confidence := conf, missing_info := [] })).route =
      Route.policy ∧
    (routerStep threshold
      (some { intent := .product_info, confidence := conf, missing_info := [] })).route ≠
      Route.web := by
  have hgate : ¬ conf < threshold := not_lt.mpr h
  simp [routerStep, hgate, intentToRoute]

/-- C7 witness: at threshold 0.7 and confidence 0.9 the product_info intent
routes to policy and not to web. -/
theorem C7_product_info_tie_break_witness :
    (7 : ℚ) / 10 ≤ 9 / 10 ∧
    ((routerStep (7 / 10)
      (some { intent := .product_info, confidence := 9 / 10, missing_info := [] })).route =
      Route.policy ∧
     (routerStep (7 / 10)
      (some { intent := .product_info, confidence := 9 / 10, missing_info := [] })).route ≠
      Route.web) :=
  ⟨by norm_num, C7_product_info_tie_break (7 / 10) (9 / 10) (by norm_num)⟩

/-- C4: order-branch exclusivity — every execution of the SQL handler sets
exactly one of sql_result and sql_error, and a backend exception (the
Except.error outcome of the execute collaborator) is converted locally into
sql_error; sql_node is a total function, so nothing propagates out of it. -/
theorem C4_sql_node_exclusive (execute : String → Except String (List RowMap))
    (s : AgentState) :
    (((sql_node execute s).sql_result.isSome ∧ (sql_node execute s).sql_error = none) ∨
     ((sql_node execute s).sql_result = none ∧ (sql_node execute s).sql_error.isSome)) ∧
    (∀ e, execute s.user_query = .error e → (sql_node execute s).sql_error = some e) := by
  constructor
  · cases hx : execute s.user_query <;> simp [sql_node, hx]
  · intro e he
    simp [sql_node, he]

/-- C4 witness: with a backend that raises on every query, the handler
converts the exception into sql_error and leaves sql_result unset. -/
theorem C4_sql_node_exclusive_witness :
    (((sql_node (fun _ => .error "query backend failed") {}).sql_result.isSome ∧
      (sql_node (fun _ => .error "query backend failed") {}).sql_error = none) ∨
     ((sql_node (fun _ => .error "query backend failed") {}).sql_result = none ∧
      (sql_node (fun _ => .error "query backend failed") {}).sql_error.isSome)) ∧
    (∀ e, (fun _ => Except.error e : String → Except String (List RowMap)) "" = .error e →
      True) ∧
    (sql_node (fun _ => .error "query backend failed") {}).sql_error =
      some "query backend failed" := by
  refine ⟨(C4_sql_node_exclusive (fun _ => .error "query backend failed") {}).1, ?_, ?_⟩
  · intro e _; trivial
  · exact (C4_sql_node_exclusive (fun _ => .error "query backend failed") {}).2
      "query backend failed" rfl

/-- C9: compute_accuracy returns 0 on the empty list and otherwise the
number of records whose correct field is true divided by the total number
of records, and the result always lies in the interval from 0 to 1. -/
theorem C9_compute_accuracy (results : List EvalResult) :
    (results = [] → compute_accuracy results = 0) ∧
    (results ≠ [] → compute_accuracy results =
      ((results.filter fun r => r.correct).length : ℚ) / (results.length : ℚ)) ∧
    0 ≤ compute_accuracy results ∧ compute_accuracy results ≤ 1 := by
  refine ⟨fun h => by simp [compute_accuracy, h], fun h => ?_, ?_, ?_⟩
  · simp [compute_accuracy, h, List.countP_eq_length_filter]
  · unfold compute_accuracy
    split
    · exact le_refl 0
    · positivity
  · unfold compute_accuracy
    split
    · norm_num
    · next h =>
      have hlen : 0 < (results.length : ℚ) := by
        have : results.length ≠ 0 := by
          simpa [List.length_eq_zero] using h
        exact_mod_cast Nat.pos_of_ne_zero this
      rw [div_le_one hlen]
      exact_mod_cast List.countP_le_length (fun r => r.correct) (l := results)

/-- C9 witness: on a two-record list with one correct record the accuracy
is the count of correct records over the total, and the bounds hold. -/
theorem C9_compute_accuracy_witness :
    ([({ id := "g1", query := "a", expected_intent := "policy",
         predicted_intent := "policy", correct := true } : EvalResult),
      { id := "g2", query := "b", expected_intent := "sql",
        predicted_intent := "web", correct := false }] ≠ ([] : List EvalResult)) ∧
    compute_accuracy
      [{ id := "g1", query := "a", expected_intent := "policy",
         predicted_intent := "policy", correct := true },
       { id := "g2", query := "b", expected_intent := "sql",
         predicted_intent := "web", correct := false }] =
      (([({ id := "g1", query := "a", expected_intent := "policy",
            predicted_intent := "policy", correct := true } : EvalResult),
         { id := "g2", query := "b", expected_intent := "sql",
           predicted_intent := "web", correct := false }].filter
          fun r => r.correct).length : ℚ) / 2 :=
  ⟨by simp,
   (C9_compute_accuracy _).2.1 (by simp)⟩

/-- C10: get_settings is memoized — a call that finds the cache populated
returns the cached instance unchanged without reading the environment (the
result of the second call does not depend on the loader or the environment
passed to it), so two successive calls yield the same instance. -/
theorem C10_get_settings_memoized (f g : Env → Settings) (env env2 : Env) :
    (get_settings g env2 (get_settings f env none).2).1 =
      (get_settings f env none).1 ∧
    (∀ s : Settings, get_settings g env2 (some s) = (s, some s)) :=
  ⟨rfl, fun _ => rfl⟩

/-- Merging a branch update leaves final_response untouched: BranchUpdate
has no such key, per the contract that only the Synthesizer sets it. -/
theorem applyBranch_final_response (s : AgentState) (u : BranchUpdate) :
    (applyBranch s u).final_response = s.final_response := rfl

/-- Merging a branch update leaves error untouched. -/
theorem applyBranch_error (s : AgentState) (u : BranchUpdate) :
    (applyBranch s u).error = s.error := rfl

/-- Applying a Router update leaves final_response untouched. -/
theorem applyRouter_final_response (s : AgentState) (u : RouterUpdate) :
    (applyRouter s u).final_response = s.final_response := rfl

/-- Applying a Router update leaves error untouched. -/
theorem applyRouter_error (s : AgentState) (u : RouterUpdate) :
    (applyRouter s u).error = s.error := rfl

/-- A clarification detour leaves final_response untouched. -/
theorem clarificationStep_final_response (s : AgentState) (t : String) :
    (clarificationStep s t).final_response = s.final_response := rfl

/-- A clarification detour leaves error untouched. -/
theorem clarificationStep_error (s : AgentState) (t : String) :
    (clarificationStep s t).error = s.error := rfl

/-- Exactly one of final_response and error is set. -/
def TerminalExclusive (s : AgentState) : Prop :=
  (s.final_response.isSome ∧ s.error = none) ∨
  (s.final_response = none ∧ s.error.isSome)

/-- Helper: finishBranch, entered with neither terminal field set, leaves
exactly one of them set (the Synthesizer sets final_response; a fatal
outcome of the handler or the Synthesizer sets error and skips the rest). -/
theorem finishBranch_terminal
    (handlers : Route → AgentState → Except String BranchUpdate)
    (synth : AgentState → Except String String)
    (r : Route) (s : AgentState)
    (hf : s.final_response = none) (he : s.error = none) :
    TerminalExclusive (finishBranch handlers synth r s) := by
  cases hx : handlers r s with
  | error fatal =>
      right
      simp [finishBranch, hx, hf]
  | ok u =>
      cases hy : synth (applyBranch s u) with
      | error fatal =>
          right
          simp [finishBranch, hx, hy, applyBranch_final_response, hf]
      | ok resp =>
          left
          simp [finishBranch, hx, hy, applyBranch_error, he]

/-- Helper: the Orchestrator loop, entered with neither terminal field set,
terminates with exactly one of them set. -/
theorem runLoop_terminal
    (classify : String → List Message → Option ClassifyResult)
    (handlers : Route → AgentState → Except String BranchUpdate)
    (synth : AgentState → Except String String) (threshold : ℚ) :
    ∀ (n : Nat) (turns : List String) (s : AgentState),
      s.final_response = none → s.error = none →
      TerminalExclusive (runLoop classify handlers synth threshold n turns s) := by
  intro n
  induction n with
  | zero =>
      intro turns s hf he
      rw [runLoop]
      split
      · exact finishBranch_terminal handlers synth _ _
          (by simp [forceFallback, applyRouter, hf])
          (by simp [forceFallback, applyRouter, he])
      · exact finishBranch_terminal handlers synth _ _
          (by simp [applyRouter, hf]) (by simp [applyRouter, he])
  | succ k ih =>
      intro turns s hf he
      rw [runLoop]
      split
      · exact ih turns.tail _
          (by simp [clarificationStep, applyRouter, hf])
          (by simp [clarificationStep, applyRouter, he])
      · exact finishBranch_terminal handlers synth _ _
          (by simp [applyRouter, hf]) (by simp [applyRouter, he])

/-- C2: for every request processed end to end by the core entry point,
exactly one of the two terminal fields final_response and error is set at
termination — never both and never neither. -/
theorem C2_terminal_exclusive
    (classify : String → List Message → Option ClassifyResult)
    (handlers : Route → AgentState → Except String BranchUpdate)
    (synth : AgentState → Except String String)
    (threshold : ℚ) (maxReroutes : Nat) (turns : List String)
    (userQuery : String) (priorHistory : List Message) :
    TerminalExclusive
      (runGraph classify handlers synth threshold maxReroutes turns
        userQuery priorHistory) :=
  runLoop_terminal classify handlers synth threshold maxReroutes turns
    { messages := priorHistory, user_query := userQuery } rfl rfl

/-- Helper: finishBranch only appends to the conversation history. -/
theorem finishBranch_messages
    (handlers : Route → AgentState → Except String BranchUpdate)
    (synth : AgentState → Except String String)
    (r : Route) (s : AgentState) :
    ∃ tail, (finishBranch handlers synth r s).messages = s.messages ++ tail := by
  cases hx : handlers r s with
  | error fatal => exact ⟨[], by simp [finishBranch, hx]⟩
  | ok u =>
      cases hy : synth (applyBranch s u) with
      | error fatal =>
          refine ⟨u.messages, ?_⟩
          simp only [finishBranch, hx, hy]
          simp [applyBranch, add_messages]
      | ok resp =>
          refine ⟨u.messages, ?_⟩
          simp only [finishBranch, hx, hy]
          simp [applyBranch, add_messages]

/-- Helper: the Orchestrator loop only appends to the conversation history
of the state it is entered with. -/
theorem runLoop_messages
    (classify : String → List Message → Option ClassifyResult)
    (handlers : Route → AgentState → Except String BranchUpdate)
    (synth : AgentState → Except String String) (threshold : ℚ) :
    ∀ (n : Nat) (turns : List String) (s : AgentState),
      ∃ tail,
        (runLoop classify handlers synth threshold n turns s).messages =
          s.messages ++ tail := by
  intro n
  induction n with
  | zero =>
      intro turns s
      rw [runLoop]
      split
      · obtain ⟨tail, ht⟩ := finishBranch_messages handlers synth .fallback
          (forceFallback
            (applyRouter s (routerStep threshold (classify s.user_query s.messages))))
        exact ⟨tail, ht⟩
      · obtain ⟨tail, ht⟩ := finishBranch_messages handlers synth
          (routerStep threshold (classify s.user_query s.messages)).route
          (applyRouter s (routerStep threshold (classify s.user_query s.messages)))
        exact ⟨tail, ht⟩
  | succ k ih =>
      intro turns s
      rw [runLoop]
      split
      · obtain ⟨tail, ht⟩ := ih turns.tail
          (clarificationStep
            (applyRouter s (routerStep threshold (classify s.user_query s.messages)))
            (turns.headD ""))
        refine ⟨Message.mk "assistant"
            (clarificationQuestion
              (routerStep threshold (classify s.user_query s.messages)).missing_info) ::
          Message.mk "user" (turns.headD "") :: tail, ?_⟩
        rw [ht]
        simp [clarificationStep, add_messages, applyRouter]
      · obtain ⟨tail, ht⟩ := finishBranch_messages handlers synth
          (routerStep threshold (classify s.user_query s.messages)).route
          (applyRouter s (routerStep threshold (classify s.user_query s.messages)))
        exact ⟨tail, ht⟩

/-- C8: append-only conversation history — the reducer returns the existing
history with the incoming entries appended at the end (the existing entries
are recovered unchanged as the take and the incoming ones as the drop, so
no prior entry is removed, replaced or reordered), every branch-update merge
applies exactly this reducer, and the history produced by a whole run
extends the prior history it started from. -/
theorem C8_append_only (s : AgentState) (u : BranchUpdate) (ex inc : List Message)
    (classify : String → List Message → Option ClassifyResult)
    (handlers : Route → AgentState → Except String BranchUpdate)
    (synth : AgentState → Except String String)
    (threshold : ℚ) (n : Nat) (turns : List String)
    (userQuery : String) (priorHistory : List Message) :
    add_messages ex inc = ex ++ inc ∧
    (add_messages ex inc).take ex.length = ex ∧
    (add_messages ex inc).drop ex.length = inc ∧
    (applyBranch s u).messages = add_messages s.messages u.messages ∧
    ∃ tail,
      (runGraph classify handlers synth threshold n turns
        userQuery priorHistory).messages = priorHistory ++ tail := by
  refine ⟨rfl, ?_, ?_, rfl, ?_⟩
  · simp [add_messages]
  · simp [add_messages]
  · exact runLoop_messages classify handlers synth threshold n turns
      { messages := priorHistory, user_query := userQuery }

/-- C5 counterexample: the route vocabulary of the code is not the claimed
set — RouteType in src/src/graph/state.py contains the value "sql", which is
not among the claimed five values (the claim says "order"). -/
theorem C5_route_vocabulary_counterexample :
    "sql" ∈ routeTypeValues ∧
    "sql" ∉ ["policy", "order", "web", "clarification", "fallback"] := by
  constructor
  · simp [routeTypeValues]
  · simp

/-- C5 (amended): the route field ranges over the five RouteType values of
state.py — policy, sql, web, clarification, fallback (the order branch is
spelled "sql") — and merging the update of a branch handler never changes route,
which only the Router (and the forced fallback of the Orchestrator) sets. -/
theorem C5_route_vocabulary_amended :
    routeTypeValues = ["policy", "sql", "web", "clarification", "fallback"] ∧
    (∀ r : Route, r.toStr ∈ routeTypeValues) ∧
    (∀ (s : AgentState) (u : BranchUpdate), (applyBranch s u).route = s.route) := by
  refine ⟨rfl, ?_, ?_⟩
  · intro r
    cases r <;> simp [Route.toStr, routeTypeValues]
  · intro s u
    rfl

/-- C6 counterexample: the Settings class does not expose a maximum
clarification re-route count — no field of Settings has integer type at all,
so the claimed integer field with default 3 does not exist (even though the
confidence threshold does default to 0.7). -/
theorem C6_settings_counterexample :
    ¬ (defaultSettings.router_confidence_threshold = 7 / 10 ∧
       ∃ p ∈ settingsFields, p.2 = ConfigType.intT) := by
  intro h
  have := h.2
  revert this
  decide

/-- C6 (amended): the configuration struct exposes a confidence threshold as
a float with default value 0.7, but it exposes no maximum clarification
re-route count — no integer-typed field exists on Settings. -/
theorem C6_settings_amended :
    defaultSettings.router_confidence_threshold = 7 / 10 ∧
    ("router_confidence_threshold", ConfigType.floatT) ∈ settingsFields ∧
    ¬ ∃ p ∈ settingsFields, p.2 = ConfigType.intT := by
  refine ⟨rfl, by decide, by decide⟩

end OmniHelp
